import Mathlib

/-!
Verification of the langflow component-registry fragment: the registry
loader (`langflow/components/__init__.py`) and the three SDLC integration
components (`azure_devops.py`, `azure_devops_writer.py`, `jira.py`).

The Python code is shallowly embedded: JSON values decoded by the HTTP
layer become the inductive `Json`; fallible Python operations (attribute
access, subscripting, arithmetic on dynamic values) become `Except PyExn`
computations; the behaviour of each external HTTP or LLM call is an
explicit oracle argument, so theorems quantify over every behaviour of
the environment.
-/

/-- A Python exception: its class name and its message (`str(e)`). -/
structure PyExn where
  ty : String
  msg : String
deriving DecidableEq, Repr

deriving instance DecidableEq for Except

/-- JSON values as decoded by `response.json()` / `json.loads`:
`null` is Python `None`, objects are key-value lists (keys unique after
decoding). -/
inductive Json where
  | null : Json
  | bool (b : Bool) : Json
  | num (n : Int) : Json
  | str (s : String) : Json
  | arr (elements : List Json) : Json
  | obj (fields : List (String × Json)) : Json

/-- Lookup in a string-keyed association list (Python dict lookup):
the value at the first matching key. -/
def dlookup {α : Type} : List (String × α) → String → Option α
  | [], _ => none
  | kv :: rest, k => if kv.1 = k then some kv.2 else dlookup rest k

mutual

/-- Python `repr` of a decoded JSON value (string escaping simplified;
no claim depends on the repr of containers, only that it is a string and
that `repr(None) = "None"`). -/
def pyRepr : Json → String
  | .null => "None"
  | .bool b => if b then "True" else "False"
  | .num n => toString n
  | .str s => "\x27" ++ s ++ "\x27"
  | .arr xs => "[" ++ pyReprList xs ++ "]"
  | .obj kvs => "\x7b" ++ pyReprObj kvs ++ "\x7d"

/-- Comma-separated repr of list elements. -/
def pyReprList : List Json → String
  | [] => ""
  | [x] => pyRepr x
  | x :: y :: xs => pyRepr x ++ ", " ++ pyReprList (y :: xs)

/-- Comma-separated repr of dict entries. -/
def pyReprObj : List (String × Json) → String
  | [] => ""
  | [(k, v)] => "\x27" ++ k ++ "\x27: " ++ pyRepr v
  | (k, v) :: kv :: kvs => "\x27" ++ k ++ "\x27: " ++ pyRepr v ++ ", " ++ pyReprObj (kv :: kvs)

end

/-- Python `str` of a decoded JSON value: strings unchanged, everything
else via `repr`; in particular `str(None) = "None"`. -/
def pyStr : Json → String
  | .str s => s
  | j => pyRepr j

/-- Python truthiness of a decoded JSON value. -/
def pyFalsy : Json → Bool
  | .null => true
  | .bool b => !b
  | .num n => n == 0
  | .str s => s.isEmpty
  | .arr xs => xs.isEmpty
  | .obj kvs => kvs.isEmpty

/-- Python `d.get(k, default)`: raises `AttributeError` on non-dicts. -/
def Json.getd (j : Json) (k : String) (dflt : Json) : Except PyExn Json :=
  match j with
  | .obj kvs => .ok ((dlookup kvs k).getD dflt)
  | _ => .error ⟨"AttributeError", "object has no attribute " ++ "\x27get\x27"⟩

/-- Python `d[k]` for a string key: `KeyError` when absent, `TypeError` on
non-dict values. -/
def Json.index (j : Json) (k : String) : Except PyExn Json :=
  match j with
  | .obj kvs =>
      match dlookup kvs k with
      | some v => .ok v
      | none => .error ⟨"KeyError", k⟩
  | _ => .error ⟨"TypeError", "object is not subscriptable"⟩

/-- Python `k in d` (only evaluated on dicts in the embedded code). -/
def Json.hasKey (j : Json) (k : String) : Bool :=
  match j with
  | .obj kvs => (dlookup kvs k).isSome
  | _ => false

/-- Python `len`. -/
def pyLen : Json → Except PyExn Int
  | .arr xs => .ok xs.length
  | .str s => .ok s.length
  | .obj kvs => .ok kvs.length
  | _ => .error ⟨"TypeError", "object has no len"⟩

/-- Python iteration (`for x in v`): lists yield elements, strings yield
one-character strings, dicts yield their keys, the rest raise. -/
def pyIter : Json → Except PyExn (List Json)
  | .arr xs => .ok xs
  | .str s => .ok (s.data.map (fun c => .str (String.mk [c])))
  | .obj kvs => .ok (kvs.map (fun kv => .str kv.1))
  | _ => .error ⟨"TypeError", "object is not iterable"⟩

/-- Numeric view used by Python arithmetic: ints, and bools as 0/1. -/
def pyToIntArith : Json → Option Int
  | .num n => some n
  | .bool b => some (if b then 1 else 0)
  | _ => none

/-- Python `//` (floor division); raises `ZeroDivisionError` on zero. -/
def pyFloorDiv (a b : Json) : Except PyExn Json :=
  match pyToIntArith a, pyToIntArith b with
  | some x, some y =>
      if y = 0 then .error ⟨"ZeroDivisionError", "integer division or modulo by zero"⟩
      else .ok (.num (Int.fdiv x y))
  | _, _ => .error ⟨"TypeError", "unsupported operand types for //"⟩

/-- Python `+` on decoded JSON values. -/
def pyAdd (a b : Json) : Except PyExn Json :=
  match a, b with
  | .str s, .str t => .ok (.str (s ++ t))
  | .arr xs, .arr ys => .ok (.arr (xs ++ ys))
  | a, b =>
      match pyToIntArith a, pyToIntArith b with
      | some x, some y => .ok (.num (x + y))
      | _, _ => .error ⟨"TypeError", "unsupported operand types for +"⟩

/-- Python `-` on decoded JSON values. -/
def pySub (a b : Json) : Except PyExn Json :=
  match pyToIntArith a, pyToIntArith b with
  | some x, some y => .ok (.num (x - y))
  | _, _ => .error ⟨"TypeError", "unsupported operand types for -"⟩

/-- Python `<` on decoded JSON values. -/
def pyLt (a b : Json) : Except PyExn Json :=
  match a, b with
  | .str s, .str t => .ok (.bool (decide (s < t)))
  | a, b =>
      match pyToIntArith a, pyToIntArith b with
      | some x, some y => .ok (.bool (decide (x < y)))
      | _, _ => .error ⟨"TypeError", "comparison not supported"⟩

/-- Python `needle in hay` for strings: substring test. -/
def strContains (hay needle : String) : Bool :=
  decide (needle.data <:+: hay.data)

/-- Classification of a character under Python digit handling, on the
modelled ranges: `decimal d` is a decimal digit of value `d`
(Unicode category Nd, accepted by `int()`); `digitOnly` has
`Numeric_Type=Digit` without being decimal (e.g. the superscript
digits), so `str.isdigit()` is true but `int()` raises `ValueError`;
`notDigit` fails `str.isdigit()`. -/
inductive PyDigitClass where
  | notDigit : PyDigitClass
  | digitOnly : PyDigitClass
  | decimal (d : Nat) : PyDigitClass
deriving DecidableEq, Repr

/-- Python digit classification on the modelled character ranges:
the ASCII digits and the Arabic-Indic decimal digits U+0660-U+0669 are
decimal; the superscript digits U+00B9, U+00B2, U+00B3 and
U+2070-U+2079 are digit-only. Characters outside `charModelled` are
classified as non-digits, which is only faithful on the modelled set. -/
def pyDigitClass (c : Char) : PyDigitClass :=
  if 48 ≤ c.toNat ∧ c.toNat ≤ 57 then .decimal (c.toNat - 48)
  else if 0x660 ≤ c.toNat ∧ c.toNat ≤ 0x669 then .decimal (c.toNat - 0x660)
  else if c.toNat = 0xB9 ∨ c.toNat = 0xB2 ∨ c.toNat = 0xB3 then .digitOnly
  else if 0x2070 ≤ c.toNat ∧ c.toNat ≤ 0x2079 then .digitOnly
  else .notDigit

/-- The character set on which this embedding is faithful to Python:
ASCII (where `lower`, `isdigit` and `int` agree with the model exactly)
plus the non-ASCII digit ranges of `pyDigitClass` (uncased, so `lower`
leaves them unchanged in Python as in the model). -/
def charModelled (c : Char) : Bool :=
  c.toNat < 128 || (0x660 ≤ c.toNat && c.toNat ≤ 0x669) ||
    c.toNat = 0xB9 || c.toNat = 0xB2 || c.toNat = 0xB3 ||
    (0x2070 ≤ c.toNat && c.toNat ≤ 0x2079)

/-- Python `str.isdigit`: non-empty and every character has
`Numeric_Type` Digit or Decimal (true for `"²"` and `"٤"` alike). -/
def pyIsDigit (s : String) : Bool :=
  !s.isEmpty && s.data.all (fun c =>
    match pyDigitClass c with
    | .notDigit => false
    | _ => true)

/-- Whether every character is a decimal digit (`int()`-acceptable). -/
def allDecimal (s : String) : Bool :=
  s.data.all (fun c =>
    match pyDigitClass c with
    | .decimal _ => true
    | _ => false)

/-- The numeric value of a decimal-digit string. -/
def pyIntVal (s : String) : Nat :=
  s.data.foldl
    (fun acc c =>
      acc * 10 +
        (match pyDigitClass c with
         | .decimal d => d
         | _ => 0))
    0

/-- Python `int(s)` on a string already known to satisfy `isdigit`:
succeeds on non-empty all-decimal strings (any mix of modelled decimal
ranges), and raises `ValueError` otherwise - in particular on
digit-only characters such as `"²"`. -/
def pyIntOfDigits (s : String) : Except PyExn Nat :=
  if !s.isEmpty && allDecimal s then .ok (pyIntVal s)
  else
    .error ⟨"ValueError",
      "invalid literal for int() with base 10: " ++ "\x27" ++ s ++ "\x27"⟩

/-! ## Priority parsing (`AzureDevOpsWriterComponent._parse_priority`) -/

/-- The keyword chain of `_parse_priority` after the numeric check
(`azure_devops_writer.py` lines 455-465). -/
def parsePriorityText (ps : String) : Nat :=
  if strContains ps "critical" || strContains ps "highest" then 1
  else if strContains ps "high" then 2
  else if strContains ps "medium" || strContains ps "normal" then 3
  else if strContains ps "low" || strContains ps "lowest" then 4
  else 3

/-- Python `str.lower`, character-wise: ASCII letters are lowered and
every other modelled character (digits, superscripts) is uncased, so
Python leaves it unchanged just like `Char.toLower` does. -/
def pyLower (s : String) : String := String.mk (s.data.map Char.toLower)

/-- Embeds `AzureDevOpsWriterComponent._parse_priority`
(`azure_devops_writer.py` lines 444-465): lower-case the input; when
`isdigit()` holds, `int()` either yields the priority (returned
verbatim when it lies in 1-4) or raises `ValueError`, which propagates
to the caller; otherwise fall through to the keyword chain, defaulting
to 3. -/
def _parse_priority (priority_string : String) : Except PyExn Nat :=
  if pyIsDigit (pyLower priority_string) then
    match pyIntOfDigits (pyLower priority_string) with
    | .error e => .error e
    | .ok priority =>
        if 1 ≤ priority ∧ priority ≤ 4 then .ok priority
        else .ok (parsePriorityText (pyLower priority_string))
  else .ok (parsePriorityText (pyLower priority_string))

/-- C3 as amended: a string passing `isdigit` that is not all decimal
digits makes `int()` raise `ValueError`, which escapes `_parse_priority`;
an all-decimal digit string denoting 1-4 returns that number; otherwise
the keyword substring chain on the lower-cased input, in the documented
order; every other string gives 3. -/
def specParsePriority (s : String) : Except PyExn Nat :=
  if pyIsDigit (pyLower s) = true ∧ allDecimal (pyLower s) = false then
    .error ⟨"ValueError",
      "invalid literal for int() with base 10: " ++ "\x27" ++ pyLower s ++ "\x27"⟩
  else if pyIsDigit (pyLower s) = true ∧ 1 ≤ pyIntVal (pyLower s) ∧
      pyIntVal (pyLower s) ≤ 4 then
    .ok (pyIntVal (pyLower s))
  else if strContains (pyLower s) "critical" || strContains (pyLower s) "highest" then
    .ok 1
  else if strContains (pyLower s) "high" then .ok 2
  else if strContains (pyLower s) "medium" || strContains (pyLower s) "normal" then
    .ok 3
  else if strContains (pyLower s) "low" || strContains (pyLower s) "lowest" then .ok 4
  else .ok 3

example : _parse_priority "3" = .ok 3 := by decide
example : _parse_priority "Highest" = .ok 1 := by decide
example : _parse_priority "lowest" = .ok 4 := by decide
example : _parse_priority "7" = .ok 3 := by decide
example : _parse_priority "" = .ok 3 := by decide
example : _parse_priority "01" = .ok 1 := by decide
example : _parse_priority "٤" = .ok 4 := by decide

theorem parsePriorityText_range (ps : String) :
    1 ≤ parsePriorityText ps ∧ parsePriorityText ps ≤ 4 := by
  unfold parsePriorityText
  split
  · omega
  · split
    · omega
    · split
      · omega
      · split <;> omega

theorem pyIsDigit_not_empty (s : String) (h : pyIsDigit s = true) :
    s.isEmpty = false := by
  unfold pyIsDigit at h
  rcases Bool.and_eq_true_iff.mp h with ⟨h1, _⟩
  simpa using h1

/-- C3 (amended): over the modelled character set, `_parse_priority`
raises only `ValueError`, and only on inputs whose lower-cased form
passes `isdigit` without being all decimal digits; every returned value
lies in 1-4; and the function agrees clause by clause with the amended
description (ValueError on non-decimal digit strings, verbatim 1-4 for
decimal digit strings denoting them, the keyword chain otherwise,
default 3). -/
theorem ok_parsePriorityText_eq_chain (ps : String) :
    (Except.ok (parsePriorityText ps) : Except PyExn Nat) =
      (if strContains ps "critical" || strContains ps "highest" then .ok 1
       else if strContains ps "high" then .ok 2
       else if strContains ps "medium" || strContains ps "normal" then .ok 3
       else if strContains ps "low" || strContains ps "lowest" then .ok 4
       else .ok 3) := by
  unfold parsePriorityText
  split
  · rfl
  · split
    · rfl
    · split
      · rfl
      · split <;> rfl

/-- A component class or instance as seen by the registry loader:
its Python class name (`__name__`), its docstring (`__doc__`, possibly
`None`), the result of accessing its `name` attribute (absent attributes
raise), and whether it has a `build_config` attribute. -/
structure PyClass where
  clsName : String
  docstring : Option String
  attrName : Except PyExn String
  hasBuildConfig : Bool
deriving DecidableEq, Repr

/-- The dict that `register_with_load_method` stores (lines 111-116);
the redundant `component_name: component_name` entry of the source dict
adds no information and is omitted. -/
structure RegEntry where
  name : String
  description : Option String
  component : PyClass
deriving DecidableEq, Repr

/-- A value stored in `CUSTOM_COMPONENT_REGISTRY`: either the dict
created by `register_with_load_method` or a component stored directly by
`load_components_registry`. -/
inductive RegValue where
  | entry (e : RegEntry)
  | comp (c : PyClass)
deriving DecidableEq, Repr

/-- Python truthiness of a stored registry value, as tested by
`if not CUSTOM_COMPONENT_REGISTRY.get(component_name)` (line 109): the
dicts created by `register_with_load_method` are non-empty and component
classes/instances are ordinary objects, so every stored value is truthy. -/
def RegValue.truthy : RegValue → Bool := fun _ => true

/-- A Python dict keyed by strings, as an insertion-ordered
association list with unique keys. -/
abbrev Registry := List (String × RegValue)

/-- Python `d[k] = v`: replace in place when the key exists, append
otherwise. -/
def dictSet {α : Type} : List (String × α) → String → α → List (String × α)
  | [], k, v => [(k, v)]
  | kv :: rest, k, v =>
      if kv.1 = k then (k, v) :: rest else kv :: dictSet rest k v

/-- Embeds `register_with_load_method` (`__init__.py` lines 97-123): look up
the class name; if the stored value is truthy leave the registry alone,
otherwise store the descriptor dict. -/
def register_with_load_method (reg : Registry) (c : PyClass) : Registry :=
  match dlookup reg c.clsName with
  | some v =>
      if v.truthy then reg
      else dictSet reg c.clsName (.entry ⟨c.clsName, c.docstring, c⟩)
  | none => dictSet reg c.clsName (.entry ⟨c.clsName, c.docstring, c⟩)

/-- The inner loop of `load_components_registry` (lines 159-161) over a
single collection: members with a `build_config` attribute are written
into the registry under their `name` attribute; the rest are skipped
without touching their attributes. -/
def scanCollection (reg : Registry) : List PyClass → Except PyExn Registry
  | [] => .ok reg
  | m :: ms =>
      if m.hasBuildConfig then
        match m.attrName with
        | .error e => .error e
        | .ok n => scanCollection (dictSet reg n (.comp m)) ms
      else scanCollection reg ms

/-- The outer loop of `load_components_registry` (lines 133-161) over
all component collections. -/
def scanCollections (reg : Registry) : List (List PyClass) → Except PyExn Registry
  | [] => .ok reg
  | coll :: rest =>
      match scanCollection reg coll with
      | .error e => .error e
      | .ok r => scanCollections r rest

/-- Insert one pair into a key-sorted association list. -/
def insertByKey (kv : String × RegValue) : Registry → Registry
  | [] => [kv]
  | kv2 :: rest =>
      if kv.1 ≤ kv2.1 then kv :: kv2 :: rest else kv2 :: insertByKey kv rest

/-- Embeds `dict(sorted(d.items()))` (lines 164-166): sort the entries by key
(keys are unique, so tuple order is key order). -/
def sortByKey : Registry → Registry
  | [] => []
  | kv :: rest => insertByKey kv (sortByKey rest)

/-- Embeds `load_components_registry` (`__init__.py` lines 125-171): scan every
collection into `CUSTOM_COMPONENT_REGISTRY`, return the key-sorted dict,
and return the empty dict if anything raised during the scan. -/
def load_components_registry (reg : Registry) (colls : List (List PyClass)) : Registry :=
  match scanCollections reg colls with
  | .ok r => sortByKey r
  | .error _ => []

/-- Module initialization of `COMPONENTS_REGISTRY` (lines 352 and 367):
`load_components_registry()` followed by the post-return insertion
`COMPONENTS_REGISTRY["BooleanOutputParser"] = BooleanOutputParser()`.
The statements in between (lines 353-361) build `COMPONENT_LIST` and do
not touch the registry. -/
def module_init (reg : Registry) (colls : List (List PyClass)) (boolParser : RegValue) :
    Registry :=
  dictSet (load_components_registry reg colls) "BooleanOutputParser" boolParser

/-- The `BooleanOutputParser()` instance stored at line 367 (its class
lives outside this fragment; only its identity as a stored value
matters). -/
def bopValue : RegValue :=
  .comp ⟨"BooleanOutputParser", some "Parses boolean output", .ok "BooleanOutputParser", true⟩

/-- The stream of `(name, member)` writes that the scan performs, in
order: one write per `build_config`-carrying member, or the first
exception raised by a `name` attribute access. -/
def collWrites : List PyClass → Except PyExn (List (String × PyClass))
  | [] => .ok []
  | m :: ms =>
      if m.hasBuildConfig then
        match m.attrName with
        | .error e => .error e
        | .ok n =>
            match collWrites ms with
            | .error e => .error e
            | .ok ws => .ok ((n, m) :: ws)
      else collWrites ms

/-! ### Dictionary lemmas -/

theorem dlookup_dictSet_self {α : Type} (r : List (String × α)) (k : String) (v : α) :
    dlookup (dictSet r k v) k = some v := by
  induction r with
  | nil => simp [dictSet, dlookup]
  | cons kv rest ih =>
      by_cases h : kv.1 = k
      · simp [dictSet, h, dlookup]
      · simp [dictSet, h, dlookup, ih]

theorem dlookup_dictSet_ne {α : Type} (r : List (String × α)) (k k' : String) (v : α)
    (h : k' ≠ k) : dlookup (dictSet r k v) k' = dlookup r k' := by
  induction r with
  | nil => simp [dictSet, dlookup, Ne.symm h]
  | cons kv rest ih =>
      by_cases hk : kv.1 = k
      · subst hk
        simp [dictSet, dlookup, Ne.symm h, ih]
      · by_cases hk' : kv.1 = k' <;> simp [dictSet, dlookup, hk, hk', h, ih]

theorem keys_dictSet {α : Type} (r : List (String × α)) (k : String) (v : α) :
    (dictSet r k v).map Prod.fst =
      if k ∈ r.map Prod.fst then r.map Prod.fst else r.map Prod.fst ++ [k] := by
  induction r with
  | nil => simp [dictSet]
  | cons kv rest ih =>
      by_cases h : kv.1 = k
      · simp [dictSet, h]
      · simp only [dictSet, if_neg h, List.map_cons, ih]
        by_cases hm : k ∈ rest.map Prod.fst <;> simp [hm, Ne.symm h]

theorem nodup_keys_dictSet {α : Type} (r : List (String × α)) (k : String) (v : α)
    (h : (r.map Prod.fst).Nodup) : ((dictSet r k v).map Prod.fst).Nodup := by
  rw [keys_dictSet]
  by_cases hm : k ∈ r.map Prod.fst
  · simpa [hm] using h
  · rw [if_neg hm]
    exact List.Nodup.append h (List.nodup_singleton k) (by simpa using hm)

theorem dlookup_isSome_iff_mem_keys {α : Type} (r : List (String × α)) (k : String) :
    (dlookup r k).isSome ↔ k ∈ r.map Prod.fst := by
  induction r with
  | nil => simp [dlookup]
  | cons kv rest ih =>
      by_cases h : kv.1 = k
      · simp [dlookup, h]
      · simp only [dlookup, if_neg h, List.map_cons, List.mem_cons, ih]
        constructor
        · exact fun hm => Or.inr hm
        · rintro (hm | hm)
          · exact absurd hm.symm h
          · exact hm

theorem dlookup_eq_some_iff_mem {α : Type} (r : List (String × α)) (k : String) (v : α)
    (hnd : (r.map Prod.fst).Nodup) : dlookup r k = some v ↔ (k, v) ∈ r := by
  induction r with
  | nil => simp [dlookup]
  | cons kv rest ih =>
      obtain ⟨a, b⟩ := kv
      simp only [List.map_cons, List.nodup_cons] at hnd
      by_cases h : a = k
      · subst h
        constructor
        · intro h2
          have hv : b = v := by simpa [dlookup] using h2
          subst hv
          exact List.mem_cons_self _ _
        · intro h2
          rcases List.mem_cons.mp h2 with h3 | h3
          · simp only [Prod.mk.injEq, true_and] at h3
            simp [dlookup, h3]
          · exact absurd (List.mem_map_of_mem Prod.fst h3) (by simpa using hnd.1)
      · simp only [dlookup, if_neg h, List.mem_cons, ih hnd.2]
        constructor
        · exact fun h2 => Or.inr h2
        · rintro (h2 | h2)
          · simp only [Prod.mk.injEq] at h2
            exact absurd h2.1.symm h
          · exact h2

theorem dlookup_append {α : Type} (a b : List (String × α)) (k : String) :
    dlookup (a ++ b) k = (dlookup a k).or (dlookup b k) := by
  induction a with
  | nil => simp [dlookup]
  | cons kv rest ih =>
      by_cases h : kv.1 = k <;> simp [dlookup, h, ih]

theorem dlookup_eq_of_perm {α : Type} (r r' : List (String × α)) (hp : r.Perm r')
    (hnd : (r.map Prod.fst).Nodup) (k : String) : dlookup r k = dlookup r' k := by
  have hnd' : (r'.map Prod.fst).Nodup := ((hp.map Prod.fst).nodup_iff).mp hnd
  cases hl : dlookup r k with
  | some v =>
      have := (dlookup_eq_some_iff_mem r k v hnd).mp hl
      exact ((dlookup_eq_some_iff_mem r' k v hnd').mpr (hp.mem_iff.mp this)).symm
  | none =>
      cases hl' : dlookup r' k with
      | none => rfl
      | some v =>
          have := (dlookup_eq_some_iff_mem r' k v hnd').mp hl'
          have := (dlookup_eq_some_iff_mem r k v hnd).mpr (hp.mem_iff.mpr this)
          rw [this] at hl
          exact absurd hl (by simp)

/-! ### Scan and sort lemmas -/

/-- Apply a write stream to a registry (one `dictSet` per write). -/
def applyWrites (reg : Registry) (ws : List (String × PyClass)) : Registry :=
  ws.foldl (fun r w => dictSet r w.1 (.comp w.2)) reg

theorem dlookup_applyWrites (ws : List (String × PyClass)) (reg : Registry) (k : String) :
    dlookup (applyWrites reg ws) k =
      ((dlookup ws.reverse k).map RegValue.comp).or (dlookup reg k) := by
  induction ws generalizing reg with
  | nil => simp [applyWrites, dlookup]
  | cons w rest ih =>
      simp only [applyWrites, List.foldl_cons, List.reverse_cons] at *
      rw [ih, dlookup_append]
      cases hrl : dlookup rest.reverse k with
      | some m => simp
      | none =>
          simp only [Option.map_none, Option.none_or, Option.map_some]
          by_cases hk : k = w.1
          · subst hk
            simp [dlookup, dlookup_dictSet_self]
          · simp [dlookup, Ne.symm hk, dlookup_dictSet_ne _ _ _ _ hk]

theorem nodup_keys_applyWrites (ws : List (String × PyClass)) (reg : Registry)
    (h : (reg.map Prod.fst).Nodup) : ((applyWrites reg ws).map Prod.fst).Nodup := by
  induction ws generalizing reg with
  | nil => exact h
  | cons w rest ih =>
      simp only [applyWrites, List.foldl_cons]
      exact ih _ (nodup_keys_dictSet _ _ _ h)

theorem scanCollection_eq_writes (coll : List PyClass) (reg : Registry) :
    scanCollection reg coll = (collWrites coll).map (applyWrites reg) := by
  induction coll generalizing reg with
  | nil => simp [scanCollection, collWrites, applyWrites, Except.map]
  | cons m ms ih =>
      by_cases hb : m.hasBuildConfig
      · cases hn : m.attrName with
        | error e => simp [scanCollection, collWrites, hb, hn, Except.map]
        | ok n =>
            simp only [scanCollection, collWrites, hb, if_true, hn, ih]
            cases collWrites ms <;> simp [Except.map, applyWrites]
      · simp [scanCollection, collWrites, hb, ih]

theorem scanCollection_append (a b : List PyClass) (reg : Registry) :
    scanCollection reg (a ++ b) =
      match scanCollection reg a with
      | .error e => .error e
      | .ok r => scanCollection r b := by
  induction a generalizing reg with
  | nil => simp [scanCollection]
  | cons m ms ih =>
      by_cases hb : m.hasBuildConfig
      · cases hn : m.attrName with
        | error e => simp [scanCollection, hb, hn]
        | ok n => simp [scanCollection, hb, hn, ih]
      · simp [scanCollection, hb, ih]

theorem scanCollections_eq_join (colls : List (List PyClass)) (reg : Registry) :
    scanCollections reg colls = scanCollection reg colls.flatten := by
  induction colls generalizing reg with
  | nil => simp [scanCollections, scanCollection]
  | cons c rest ih =>
      simp only [scanCollections, List.flatten_cons]
      rw [scanCollection_append]
      cases hsc : scanCollection reg c <;> simp [hsc, ih]

theorem perm_insertByKey (kv : String × RegValue) (r : Registry) :
    (insertByKey kv r).Perm (kv :: r) := by
  induction r with
  | nil => simp [insertByKey]
  | cons kv2 rest ih =>
      by_cases h : kv.1 ≤ kv2.1
      · simp [insertByKey, h]
      · simp only [insertByKey, if_neg h]
        exact (ih.cons kv2).trans (List.Perm.swap kv kv2 rest)

theorem perm_sortByKey (r : Registry) : (sortByKey r).Perm r := by
  induction r with
  | nil => simp [sortByKey]
  | cons kv rest ih =>
      exact (perm_insertByKey kv (sortByKey rest)).trans (ih.cons kv)

theorem sorted_insertByKey (kv : String × RegValue) (r : Registry)
    (h : r.Pairwise (fun a b => a.1 ≤ b.1)) :
    (insertByKey kv r).Pairwise (fun a b => a.1 ≤ b.1) := by
  induction r with
  | nil => simp [insertByKey]
  | cons kv2 rest ih =>
      rcases List.pairwise_cons.mp h with ⟨h1, h2⟩
      by_cases hle : kv.1 ≤ kv2.1
      · rw [insertByKey, if_pos hle]
        refine List.pairwise_cons.mpr ⟨?_, h⟩
        intro b hb
        rcases List.mem_cons.mp hb with rfl | hb
        · exact hle
        · exact le_trans hle (h1 b hb)
      · rw [insertByKey, if_neg hle]
        refine List.pairwise_cons.mpr ⟨?_, ih h2⟩
        intro b hb
        have hb2 := (perm_insertByKey kv rest).mem_iff.mp hb
        rcases List.mem_cons.mp hb2 with rfl | hb2
        · exact le_of_lt (lt_of_not_le hle)
        · exact h1 b hb2

theorem sorted_sortByKey (r : Registry) :
    (sortByKey r).Pairwise (fun a b => a.1 ≤ b.1) := by
  induction r with
  | nil => simp [sortByKey]
  | cons kv rest ih => exact sorted_insertByKey kv (sortByKey rest) ih

theorem dictSet_eq_append_of_dlookup_none {α : Type} (r : List (String × α)) (k : String)
    (v : α) (h : dlookup r k = none) : dictSet r k v = r ++ [(k, v)] := by
  induction r with
  | nil => simp [dictSet]
  | cons kv rest ih =>
      by_cases hk : kv.1 = k
      · simp [dlookup, hk] at h
      · simp only [dlookup, if_neg hk] at h
        simp [dictSet, hk, ih h]

theorem mem_keys_collWrites (l : List PyClass) (ws : List (String × PyClass))
    (h : collWrites l = .ok ws) (k : String) :
    k ∈ ws.map Prod.fst ↔ ∃ m, m ∈ l ∧ m.hasBuildConfig ∧ m.attrName = .ok k := by
  induction l generalizing ws with
  | nil =>
      rw [collWrites] at h
      injection h with h2
      subst h2
      simp
  | cons m ms ih =>
      by_cases hb : m.hasBuildConfig
      · cases hn : m.attrName with
        | error e => rw [collWrites, if_pos hb, hn] at h; cases h
        | ok n =>
            rw [collWrites, if_pos hb, hn] at h
            cases hws : collWrites ms with
            | error e => rw [hws] at h; cases h
            | ok ws2 =>
                rw [hws] at h
                injection h with h2
                subst h2
                simp only [List.map_cons, List.mem_cons]
                rw [ih ws2 hws]
                constructor
                · rintro (rfl | hm)
                  · exact ⟨m, Or.inl rfl, hb, hn⟩
                  · obtain ⟨m2, hm2, hb2, hn2⟩ := hm
                    exact ⟨m2, Or.inr hm2, hb2, hn2⟩
                · rintro ⟨m2, rfl | hm2, hb2, hn2⟩
                  · left
                    rw [hn] at hn2
                    injection hn2 with h3
                    exact h3.symm
                  · right
                    exact ⟨m2, hm2, hb2, hn2⟩
      · rw [collWrites, if_neg hb] at h
        rw [ih ws h]
        constructor
        · rintro ⟨m2, hm2, hb2, hn2⟩
          exact ⟨m2, List.mem_cons_of_mem _ hm2, hb2, hn2⟩
        · rintro ⟨m2, hm2, hb2, hn2⟩
          rcases List.mem_cons.mp hm2 with heq | hm2
          · subst heq
            exact absurd hb2 (by simpa using hb)
          · exact ⟨m2, hm2, hb2, hn2⟩

/-- C4: provided the initial `CUSTOM_COMPONENT_REGISTRY` has unique
keys, `load_components_registry` returns a mapping whose key sequence
is strictly ascending (each component name occurs exactly once, in
sorted order); when the scan raises no exception the value stored at a
name is the last `build_config`-carrying member written under that name
(later writes replace earlier ones), falling back to the pre-existing
entry for unscanned names; and on any exception during the scan the
empty mapping is returned. -/
theorem load_components_registry_correct (reg : Registry) (colls : List (List PyClass))
    (hnd : (reg.map Prod.fst).Nodup) :
    (((load_components_registry reg colls).map Prod.fst).Sorted (· < ·)) ∧
    (∀ ws, collWrites colls.flatten = .ok ws → ∀ k,
      dlookup (load_components_registry reg colls) k =
        ((dlookup ws.reverse k).map RegValue.comp).or (dlookup reg k)) ∧
    (∀ e, collWrites colls.flatten = .error e →
      load_components_registry reg colls = []) := by
  unfold load_components_registry
  rw [scanCollections_eq_join, scanCollection_eq_writes]
  cases hw : collWrites colls.flatten with
  | error e =>
      simp only [Except.map]
      refine ⟨by simp, ?_, ?_⟩
      · intro ws hws
        cases hws
      · intro e2 he2
        trivial
  | ok ws =>
      simp only [Except.map]
      have hperm := perm_sortByKey (applyWrites reg ws)
      have hnd2 := nodup_keys_applyWrites ws reg hnd
      have hnd3 : ((sortByKey (applyWrites reg ws)).map Prod.fst).Nodup :=
        ((hperm.map Prod.fst).nodup_iff).mpr hnd2
      refine ⟨?_, ?_, ?_⟩
      · have hsorted := sorted_sortByKey (applyWrites reg ws)
        have hle : ((sortByKey (applyWrites reg ws)).map Prod.fst).Sorted (· ≤ ·) :=
          List.pairwise_map.mpr hsorted
        exact List.Sorted.lt_of_le hle hnd3
      · intro ws2 hws2 k
        injection hws2 with h2
        subst h2
        rw [dlookup_eq_of_perm _ _ hperm hnd3, dlookup_applyWrites]
      · intro e2 he2
        cases he2

/-- C10: `register_with_load_method` has first-registration-wins
semantics: a name already present (its stored value being truthy) leaves
the registry unchanged; a fresh name appends exactly one entry, keyed by
the class name, carrying the class docstring as description and the
class itself as component. -/
theorem register_with_load_method_correct (reg : Registry) (c : PyClass) :
    ((dlookup reg c.clsName).isSome → register_with_load_method reg c = reg) ∧
    (dlookup reg c.clsName = none →
      register_with_load_method reg c =
        reg ++ [(c.clsName, .entry ⟨c.clsName, c.docstring, c⟩)]) := by
  constructor
  · intro h
    unfold register_with_load_method
    cases hl : dlookup reg c.clsName with
    | none => rw [hl] at h; simp at h
    | some v => simp [RegValue.truthy]
  · intro h
    unfold register_with_load_method
    rw [h]
    exact dictSet_eq_append_of_dlookup_none reg c.clsName _ h

/-- A sample component class used by concrete witnesses. -/
def cX : PyClass := ⟨"X", some "docX", .ok "X", true⟩

theorem register_with_load_method_correct_witness :
    register_with_load_method [("X", .comp cX)] cX = [("X", .comp cX)] ∧
    register_with_load_method [] cX = [("X", .entry ⟨"X", some "docX", cX⟩)] :=
  ⟨(register_with_load_method_correct [("X", .comp cX)] cX).1 (by decide),
   by simpa using (register_with_load_method_correct [] cX).2 rfl⟩

/-- The `BooleanOutputParser()` instance stored by `__init__.py` line
367; only its identity as a stored registry value matters here. -/
theorem components_registry_mutated_after_load :
    load_components_registry [] [] = [] ∧
    module_init [] [] bopValue = [("BooleanOutputParser", bopValue)] ∧
    dlookup (load_components_registry [] []) "BooleanOutputParser" = none ∧
    dlookup (module_init [] [] bopValue) "BooleanOutputParser" = some bopValue :=
  ⟨rfl, rfl, rfl, rfl⟩

/-- C5 (amended): after `load_components_registry` returns, module
initialization performs exactly one further mutation of
`COMPONENTS_REGISTRY` - storing the `BooleanOutputParser` entry (line
367); every other key is left exactly as `load_components_registry`
returned it, and nothing else in the module mutates the registry. -/
theorem module_init_mutation_profile (reg : Registry) (colls : List (List PyClass))
    (v : RegValue) :
    dlookup (module_init reg colls v) "BooleanOutputParser" = some v ∧
    ∀ k, k ≠ "BooleanOutputParser" →
      dlookup (module_init reg colls v) k =
        dlookup (load_components_registry reg colls) k :=
  ⟨dlookup_dictSet_self _ _ _, fun _ hk => dlookup_dictSet_ne _ _ _ _ hk⟩

theorem module_init_mutation_profile_witness :
    dlookup (module_init [] [] bopValue) "BooleanOutputParser" = some bopValue ∧
    dlookup (module_init [] [] bopValue) "JiraComponent" =
      dlookup (load_components_registry [] []) "JiraComponent" :=
  ⟨(module_init_mutation_profile [] [] bopValue).1,
   (module_init_mutation_profile [] [] bopValue).2 "JiraComponent" (by decide)⟩

/-- C6: with the registry empty at module start, a name is a key of the
mapping built by `load_components_registry` iff some scanned member
carries a `build_config` attribute and that name; members without
`build_config` are skipped (and their `name` attribute is never read). -/
theorem registry_key_iff_build_config (colls : List (List PyClass))
    (ws : List (String × PyClass)) (hok : collWrites colls.flatten = .ok ws) (k : String) :
    k ∈ (load_components_registry [] colls).map Prod.fst ↔
      ∃ m, m ∈ colls.flatten ∧ m.hasBuildConfig ∧ m.attrName = .ok k := by
  unfold load_components_registry
  rw [scanCollections_eq_join, scanCollection_eq_writes, hok]
  simp only [Except.map]
  rw [← mem_keys_collWrites colls.flatten ws hok k]
  rw [((perm_sortByKey (applyWrites [] ws)).map Prod.fst).mem_iff]
  rw [← dlookup_isSome_iff_mem_keys, dlookup_applyWrites]
  simp only [dlookup, Option.or_none]
  rw [show (k ∈ List.map Prod.fst ws) = (k ∈ List.map Prod.fst ws.reverse) by
    rw [List.map_reverse, List.mem_reverse]]
  rw [← dlookup_isSome_iff_mem_keys]
  cases dlookup ws.reverse k <;> simp

/-- Sample members for the registry witnesses: one with `build_config`,
one without, and a later one sharing the first one's name. -/
def mWith : PyClass := ⟨"A", none, .ok "CompA", true⟩

/-- A member without `build_config` (skipped by the scan). -/
def mWithout : PyClass := ⟨"B", none, .ok "CompB", false⟩

/-- A later member reusing the name `CompA` (replaces `mWith`). -/
def mDup : PyClass := ⟨"A2", none, .ok "CompA", true⟩

theorem registry_key_iff_build_config_witness :
    "CompA" ∈ (load_components_registry [] [[mWith, mWithout]]).map Prod.fst ↔
      ∃ m, m ∈ [[mWith, mWithout]].flatten ∧ m.hasBuildConfig ∧ m.attrName = .ok "CompA" :=
  registry_key_iff_build_config [[mWith, mWithout]] [("CompA", mWith)] rfl "CompA"

theorem load_components_registry_correct_witness :
    (((load_components_registry [] [[mWith, mWithout], [mDup]]).map Prod.fst).Sorted (· < ·)) ∧
    dlookup (load_components_registry [] [[mWith, mWithout], [mDup]]) "CompA" =
      some (.comp mDup) := by
  have h := load_components_registry_correct [] [[mWith, mWithout], [mDup]] (by simp)
  refine ⟨h.1, ?_⟩
  have h2 := h.2.1 [("CompA", mWith), ("CompA", mDup)] rfl "CompA"
  rw [h2]
  rfl

/-! ## JiraComponent (`jira.py`) -/

/-- The behaviour of one HTTP call as observed through the aiohttp
response object: the call raises, or yields a status code together with
the outcomes of `response.text()` and `response.json()` (the latter
raising on malformed JSON). -/
inductive HttpBehavior where
  | raises (e : PyExn)
  | responds (status : Int) (text : Except PyExn String) (body : Except PyExn Json)

theorem exceptBind_ok {α β : Type} (a : α) (f : α → Except PyExn β) :
    (Except.ok a >>= f) = f a := rfl

theorem exceptBind_error {α β : Type} (e : PyExn) (f : α → Except PyExn β) :
    ((Except.error e : Except PyExn α) >>= f) = Except.error e := rfl

/-- The input attributes of `JiraComponent` (all present, as set from
the component inputs). -/
structure JiraState where
  site_url : String
  username : String
  api_token : String
  jql_query : String
  max_results : Int
  include_fields : Bool
  fields : String

/-- The `pagination` sub-dict of a successful Jira result
(`jira.py` lines 143-147); the values are whatever the Python
expressions produced. -/
structure JiraPagination where
  page : Json
  total_pages : Json
  has_more : Json

/-- The success-shaped result dict of `build_issues` (lines 133-147).
It carries no `status` or `message` key. -/
structure JiraSuccess where
  total : Json
  issues_count : Int
  issues : Json
  start_at : Json
  max_results : Json
  pagination : Option JiraPagination

/-- The three result shapes `build_issues` can return: the success
dict, the non-200 dict `{status, message, details}` (lines 123-127),
and the exception dict `{status, message, exception_type}`
(lines 151-155). -/
inductive JiraResult where
  | success (s : JiraSuccess)
  | httpError (status : String) (message : String) (details : String)
  | exn (status : String) (message : String) (exception_type : String)

/-- Python `s.rstrip("/")`. -/
def pyRstripSlash (s : String) : String :=
  String.mk ((s.data.reverse.dropWhile (fun c => c = '/')).reverse)

/-- Processing of a decoded 200 response in `build_issues`
(lines 130-147): build the flat result dict, then attach the pagination
dict when `startAt`, `maxResults` and `total` are all present. Any
Python exception (non-dict response, unsized `issues` value, non-numeric
or zero `maxResults`) escapes as `.error`. -/
def processJiraBody (api_result : Json) : Except PyExn JiraSuccess := do
  let total ← api_result.getd "total" (.num 0)
  let issuesVal ← api_result.getd "issues" (.arr [])
  let issues_count ← pyLen issuesVal
  let start_at ← api_result.getd "startAt" (.num 0)
  let maxr ← api_result.getd "maxResults" (.num 0)
  let pagination ←
    if api_result.hasKey "startAt" && api_result.hasKey "maxResults" &&
        api_result.hasKey "total" then do
      let sa ← api_result.index "startAt"
      let mr ← api_result.index "maxResults"
      let tt ← api_result.index "total"
      let q ← pyFloorDiv sa mr
      let page ← pyAdd q (.num 1)
      let t1 ← pyAdd tt mr
      let t2 ← pySub t1 (.num 1)
      let total_pages ← pyFloorDiv t2 mr
      let s1 ← pyAdd sa mr
      let has_more ← pyLt s1 tt
      pure (some (⟨page, total_pages, has_more⟩ : JiraPagination))
    else
      pure none
  return ⟨total, issues_count, issuesVal, start_at, maxr, pagination⟩

/-- Embeds `JiraComponent.build_issues` (`jira.py` lines 86-160) as a function
of the component state and the behaviour of the single search POST.
The second component of the result is the list of HTTP requests issued
(by URL). The outer `except` (lines 149-155) converts any exception
into the `{status, message, exception_type}` dict. -/
def build_issues (st : JiraState) (o : HttpBehavior) : JiraResult × List String :=
  let search_url := pyRstripSlash st.site_url ++ "/rest/api/3/search"
  match o with
  | .raises e =>
      (.exn "error" ("Error fetching Jira issues: " ++ e.msg) e.ty, [search_url])
  | .responds status text body =>
      if status ≠ 200 then
        match text with
        | .error e =>
            (.exn "error" ("Error fetching Jira issues: " ++ e.msg) e.ty, [search_url])
        | .ok t =>
            (.httpError "error" ("API request failed with status " ++ toString status) t,
             [search_url])
      else
        match body with
        | .error e =>
            (.exn "error" ("Error fetching Jira issues: " ++ e.msg) e.ty, [search_url])
        | .ok api_result =>
            match processJiraBody api_result with
            | .ok s => (.success s, [search_url])
            | .error e =>
                (.exn "error" ("Error fetching Jira issues: " ++ e.msg) e.ty, [search_url])

theorem processJiraBody_pagination (body : Json) (s : JiraSuccess)
    (h : processJiraBody body = .ok s) :
    s.pagination.isSome ↔
      (body.hasKey "startAt" && body.hasKey "maxResults" && body.hasKey "total") = true := by
  unfold processJiraBody at h
  simp only [bind, Except.bind, pure, Except.pure] at h
  repeat (any_goals split at h)
  all_goals (try simp_all)
  · subst h
    simp
  · rename_i hcond
    subst h
    constructor
    · intro hfalse
      simp at hfalse
    · rintro ⟨⟨ha, hb⟩, hc⟩
      rw [hcond ha hb] at hc
      simp at hc

/-- C9: in `build_issues`, (1) a successful result carries the
pagination object exactly when the response contains all of `startAt`,
`maxResults` and `total`; (2) with integer values present and
`maxResults ≠ 0`, `page = startAt fdiv maxResults + 1`,
`total_pages = (total + maxResults - 1) fdiv maxResults` and
`has_more ↔ startAt + maxResults < total`; (3) with `maxResults = 0`
present, the division raises `ZeroDivisionError` and the method returns
the error-status dict instead of the issues. -/
theorem jira_pagination_spec :
    (∀ (st : JiraState) (status : Int) (text : Except PyExn String) (body : Json)
        (s : JiraSuccess) (tr : List String),
      build_issues st (.responds status text (.ok body)) = (.success s, tr) →
      (s.pagination.isSome ↔
        (body.hasKey "startAt" && body.hasKey "maxResults" && body.hasKey "total") = true)) ∧
    (∀ (st : JiraState) (text : Except PyExn String) (kvs : List (String × Json))
        (t sa mr : Int),
      dlookup kvs "startAt" = some (.num sa) →
      dlookup kvs "maxResults" = some (.num mr) →
      dlookup kvs "total" = some (.num t) →
      (dlookup kvs "issues" = none ∨ ∃ xs, dlookup kvs "issues" = some (.arr xs)) →
      mr ≠ 0 →
      ∃ s, build_issues st (.responds 200 text (.ok (.obj kvs))) =
          (.success s, [pyRstripSlash st.site_url ++ "/rest/api/3/search"]) ∧
        s.pagination = some ⟨.num (Int.fdiv sa mr + 1), .num (Int.fdiv (t + mr - 1) mr),
          .bool (decide (sa + mr < t))⟩) ∧
    (∀ (st : JiraState) (text : Except PyExn String) (kvs : List (String × Json))
        (t sa : Int),
      dlookup kvs "startAt" = some (.num sa) →
      dlookup kvs "maxResults" = some (.num 0) →
      dlookup kvs "total" = some (.num t) →
      (dlookup kvs "issues" = none ∨ ∃ xs, dlookup kvs "issues" = some (.arr xs)) →
      build_issues st (.responds 200 text (.ok (.obj kvs))) =
        (.exn "error" ("Error fetching Jira issues: integer division or modulo by zero")
          "ZeroDivisionError",
         [pyRstripSlash st.site_url ++ "/rest/api/3/search"])) := by
  refine ⟨?_, ?_, ?_⟩
  · intro st status text body s tr h
    simp only [build_issues] at h
    by_cases hs : status ≠ 200
    · rw [if_pos hs] at h
      cases text <;> simp at h
    · rw [if_neg hs] at h
      cases hpb : processJiraBody body with
      | error e => rw [hpb] at h; simp at h
      | ok s2 =>
          rw [hpb] at h
          simp only [Prod.mk.injEq, JiraResult.success.injEq] at h
          rw [← h.1]
          exact processJiraBody_pagination body s2 hpb
  · intro st text kvs t sa mr hsa hmr ht hiss hmr0
    have hpb : processJiraBody (.obj kvs) = .ok
        ⟨(dlookup kvs "total").getD (.num 0),
         (match dlookup kvs "issues" with
           | some (.arr xs) => (xs.length : Int)
           | _ => 0),
         (dlookup kvs "issues").getD (.arr []),
         (dlookup kvs "startAt").getD (.num 0),
         (dlookup kvs "maxResults").getD (.num 0),
         some ⟨.num (Int.fdiv sa mr + 1), .num (Int.fdiv (t + mr - 1) mr),
           .bool (decide (sa + mr < t))⟩⟩ := by
      unfold processJiraBody
      simp only [bind, Except.bind, pure, Except.pure, Json.getd, Json.index,
        Json.hasKey, hsa, hmr, ht, pyFloorDiv, pyAdd, pySub, pyLt, pyToIntArith,
        pyLen, if_neg hmr0]
      rcases hiss with hiss | ⟨xs, hiss⟩ <;>
        simp [hiss, pyLen, hsa, hmr, ht, if_neg hmr0]
    refine ⟨⟨(dlookup kvs "total").getD (.num 0),
      (match dlookup kvs "issues" with
        | some (.arr xs) => (xs.length : Int)
        | _ => 0),
      (dlookup kvs "issues").getD (.arr []),
      (dlookup kvs "startAt").getD (.num 0),
      (dlookup kvs "maxResults").getD (.num 0),
      some ⟨.num (Int.fdiv sa mr + 1), .num (Int.fdiv (t + mr - 1) mr),
        .bool (decide (sa + mr < t))⟩⟩, ?_, rfl⟩
    simp only [build_issues]
    rw [if_neg (by simp : ¬((200 : Int) ≠ 200)), hpb]
  · intro st text kvs t sa hsa hmr ht hiss
    simp only [build_issues]
    rw [if_neg (by simp : ¬((200 : Int) ≠ 200))]
    have hpb : processJiraBody (.obj kvs) =
        .error ⟨"ZeroDivisionError", "integer division or modulo by zero"⟩ := by
      unfold processJiraBody
      simp only [bind, Except.bind, pure, Except.pure, Json.getd, Json.index,
        Json.hasKey, hsa, hmr, ht, pyFloorDiv, pyToIntArith, pyLen]
      rcases hiss with hiss | ⟨xs, hiss⟩ <;> simp [hiss, hsa, hmr, ht, pyFloorDiv, pyToIntArith]
    rw [hpb]
    rfl

/-- A fully-populated Jira component state. -/
def jiraStateEx : JiraState :=
  ⟨"https://example.atlassian.net/", "u", "tok", "project = X", 50, true, "summary"⟩

theorem jira_pagination_spec_witness :
    (∃ s, build_issues jiraStateEx (.responds 200 (.ok "") (.ok (.obj
        [("startAt", .num 0), ("maxResults", .num 50), ("total", .num 120)]))) =
        (.success s, [pyRstripSlash jiraStateEx.site_url ++ "/rest/api/3/search"]) ∧
      s.pagination = some ⟨.num (Int.fdiv 0 50 + 1), .num (Int.fdiv (120 + 50 - 1) 50),
        .bool (decide ((0 : Int) + 50 < 120))⟩) ∧
    build_issues jiraStateEx (.responds 200 (.ok "") (.ok (.obj
        [("startAt", .num 0), ("maxResults", .num 0), ("total", .num 120)]))) =
      (.exn "error" "Error fetching Jira issues: integer division or modulo by zero"
        "ZeroDivisionError",
       [pyRstripSlash jiraStateEx.site_url ++ "/rest/api/3/search"]) :=
  ⟨jira_pagination_spec.2.1 jiraStateEx (.ok "") _ 120 0 50 rfl rfl rfl (Or.inl rfl)
    (by decide),
   jira_pagination_spec.2.2 jiraStateEx (.ok "") _ 120 0 rfl rfl rfl (Or.inl rfl)⟩

/-- A Jira component state whose required string fields are all empty. -/
def jiraEmptyState : JiraState := ⟨"", "", "", "", 50, true, ""⟩

/-- C2 counterexample: `build_issues` performs no required-field
validation. With `site_url`, `username`, `api_token` and `jql_query`
all empty, the HTTP request is still issued (the request trace is
non-empty) and a success-shaped result is returned instead of the
documented `status: error` / `Missing required parameter` payload. -/
theorem jira_missing_field_counterexample :
    jiraEmptyState.site_url = "" ∧ jiraEmptyState.username = "" ∧
    jiraEmptyState.api_token = "" ∧ jiraEmptyState.jql_query = "" ∧
    build_issues jiraEmptyState (.responds 200 (.ok "") (.ok (.obj []))) =
      (.success ⟨.num 0, 0, .arr [], .num 0, .num 0, none⟩, ["/rest/api/3/search"]) :=
  ⟨rfl, rfl, rfl, rfl, rfl⟩

/-! ## AzureDevOpsComponent (`azure_devops.py`) -/

/-- The input attributes of `AzureDevOpsComponent` (all present, as
`_set_default_attributes` guarantees). -/
structure AzState where
  organization : String
  project : String
  pat_token : String
  use_natural_language : Bool
  natural_language_query : String
  wiql_query : String
  query_type : String

/-- Single-quote a string, as the WIQL f-strings do. -/
def wiqlQuote (s : String) : String := "\x27" ++ s ++ "\x27"

/-- Embeds `AzureDevOpsComponent._generate_wiql_from_natural_language`
(`azure_devops.py` lines 319-378): keyword detection over the
lower-cased query, then WIQL string assembly. It is pure and total, so
the surrounding `try` never fires. -/
def _generate_wiql_from_natural_language (st : AzState) : String :=
  let query_lower := pyLower st.natural_language_query
  let work_item_types :=
    (if strContains query_lower "bug" then ["Bug"] else []) ++
    (if strContains query_lower "task" || strContains query_lower "tasks" then
      ["Task"] else []) ++
    (if strContains query_lower "story" || strContains query_lower "user story" then
      ["User Story"] else [])
  let work_item_types :=
    if work_item_types.isEmpty then ["Task", "Bug", "User Story"] else work_item_types
  let states :=
    (if strContains query_lower "open" || strContains query_lower "active" then
      ["Active"] else []) ++
    (if strContains query_lower "new" then ["New"] else []) ++
    (if strContains query_lower "closed" || strContains query_lower "done" ||
        strContains query_lower "complete" then ["Closed"] else [])
  let type_clause :=
    match work_item_types with
    | [t] => "[System.WorkItemType] = " ++ wiqlQuote t
    | ts => "[System.WorkItemType] IN (" ++ String.intercalate ", " (ts.map wiqlQuote) ++ ")"
  let state_clause :=
    match states with
    | [] => ""
    | [s] => " AND [System.State] = " ++ wiqlQuote s
    | ss => " AND [System.State] IN (" ++ String.intercalate ", " (ss.map wiqlQuote) ++ ")"
  "SELECT [System.Id], [System.Title], [System.State], [System.WorkItemType] " ++
    "FROM WorkItems WHERE [System.TeamProject] = " ++ wiqlQuote st.project ++ " AND " ++
    type_clause ++ state_clause ++ " ORDER BY [System.ChangedDate] DESC"

/-- The flat thirteen-field work item produced by
`_fetch_work_item_details` (lines 295-309); every field is a string
because the source wraps each value in `str(...)`. -/
structure WorkItem where
  id : String
  url : String
  title : String
  state : String
  type : String
  assigned_to : String
  description : String
  created_date : String
  created_by : String
  changed_date : String
  tags : String
  iteration_path : String
  area_path : String
deriving DecidableEq

/-- Mapping of one work item of the details response (lines 281-311):
`fields` may be missing (default `{}`); `System.AssignedTo` and
`System.CreatedBy` default to `None` and are replaced by their
`displayName` member when they are JSON objects (the `isinstance`
check; a dict `.get` cannot raise, so that step is pure); every other
field defaults to the empty string; all values pass through `str`. -/
def processWorkItem (item : Json) : Except PyExn WorkItem := do
  let fields ← item.getd "fields" (.obj [])
  let assigned_to0 ← fields.getd "System.AssignedTo" .null
  let assigned_to :=
    match assigned_to0 with
    | .obj kvs => (dlookup kvs "displayName").getD (.str "")
    | j => j
  let created_by0 ← fields.getd "System.CreatedBy" .null
  let created_by :=
    match created_by0 with
    | .obj kvs => (dlookup kvs "displayName").getD (.str "")
    | j => j
  let idv ← item.getd "id" (.str "")
  let urlv ← item.getd "url" (.str "")
  let title ← fields.getd "System.Title" (.str "")
  let statev ← fields.getd "System.State" (.str "")
  let typev ← fields.getd "System.WorkItemType" (.str "")
  let descr ← fields.getd "System.Description" (.str "")
  let created_date ← fields.getd "System.CreatedDate" (.str "")
  let changed_date ← fields.getd "System.ChangedDate" (.str "")
  let tagsv ← fields.getd "System.Tags" (.str "")
  let iter ← fields.getd "System.IterationPath" (.str "")
  let area ← fields.getd "System.AreaPath" (.str "")
  return ⟨pyStr idv, pyStr urlv, pyStr title, pyStr statev, pyStr typev,
    pyStr assigned_to, pyStr descr, pyStr created_date, pyStr created_by,
    pyStr changed_date, pyStr tagsv, pyStr iter, pyStr area⟩

/-- The loop over `details_response.get("value", [])` (lines 280-311);
an exception at any item aborts the whole computation (it is caught by
the enclosing `except`, which returns `[]`). -/
def processWorkItems (details : Json) : Except PyExn (List WorkItem) := do
  let vals ← details.getd "value" (.arr [])
  let items ← pyIter vals
  items.mapM processWorkItem

/-- Embeds `AzureDevOpsComponent._fetch_work_item_details` (lines 256-317):
join the ids with commas into one bulk-GET URL, issue the single
request, flatten the 200 response, and return `[]` on a non-200 status
or any exception. The second component is the list of issued request
URLs. -/
def azFetchUrl (st : AzState) (work_item_ids : List Json) : String :=
  "https://dev.azure.com/" ++ st.organization ++ "/" ++ st.project ++
    "/_apis/wit/workitems?ids=" ++ String.intercalate "," (work_item_ids.map pyStr) ++
    "&api-version=5.1&$expand=all"

/-- The dispatch of `_fetch_work_item_details` on the response. -/
def _fetch_work_item_details (st : AzState) (work_item_ids : List Json) :
    HttpBehavior → List WorkItem × List String
  | .raises _ => ([], [azFetchUrl st work_item_ids])
  | .responds status _text body =>
      if status ≠ 200 then ([], [azFetchUrl st work_item_ids])
      else
        match body with
        | .error _ => ([], [azFetchUrl st work_item_ids])
        | .ok details =>
            match processWorkItems details with
            | .ok ws => (ws, [azFetchUrl st work_item_ids])
            | .error _ => ([], [azFetchUrl st work_item_ids])

/-- The result dict of `build_work_items`: always `status`, `message`
and `work_items`; the `error` key is present only in the non-200 branch
(lines 214-219). -/
structure AzReadResult where
  status : String
  message : String
  error : Option String
  work_items : List WorkItem

/-- The required-attribute loop of `build_work_items` (lines 145-152):
the first of `organization`, `project`, `pat_token` that is falsy
(empty), if any. -/
def azFirstMissing (st : AzState) : Option String :=
  if st.organization = "" then some "organization"
  else if st.project = "" then some "project"
  else if st.pat_token = "" then some "pat_token"
  else none

/-- The WIQL POST URL (lines 189 and 207). -/
def azWiqlUrl (st : AzState) : String :=
  "https://dev.azure.com/" ++ st.organization ++ "/" ++ st.project ++
    "/_apis/wit/wiql?api-version=5.1"

/-- Embeds `[item["id"] for item in wiql_response.get("workItems", [])]`
(line 223). -/
def azExtractIds (wiql_response : Json) : Except PyExn (List Json) := do
  let wi ← wiql_response.getd "workItems" (.arr [])
  let items ← pyIter wi
  items.mapM (fun item => item.index "id")

/-- The HTTP part of `build_work_items` (lines 188-248): one WIQL POST,
then - when ids were found - the bulk detail fetch. Triple-quoted by
the outer `except` (lines 242-248), which converts any exception into
an error result. -/
def azRunQuery (st : AzState) (o1 o2 : HttpBehavior) : AzReadResult × List String :=
  let url := azWiqlUrl st
  match o1 with
  | .raises e => (⟨"error", "Error fetching work items: " ++ e.msg, none, []⟩, [url])
  | .responds status text body =>
      if status ≠ 200 then
        match text with
        | .error e => (⟨"error", "Error fetching work items: " ++ e.msg, none, []⟩, [url])
        | .ok t =>
            (⟨"error", "API request failed with status " ++ toString status, some t, []⟩,
             [url])
      else
        match body with
        | .error e => (⟨"error", "Error fetching work items: " ++ e.msg, none, []⟩, [url])
        | .ok wiql_response =>
            match azExtractIds wiql_response with
            | .error e =>
                (⟨"error", "Error fetching work items: " ++ e.msg, none, []⟩, [url])
            | .ok ids =>
                if ids.isEmpty then
                  (⟨"success", "No work items found", none, []⟩, [url])
                else
                  let fetched := _fetch_work_item_details st ids o2
                  (⟨"success", "Found " ++ toString fetched.1.length ++ " work items",
                    none, fetched.1⟩, url :: fetched.2)

/-- Embeds `AzureDevOpsComponent.build_work_items` (lines 141-254): validate
the required attributes, pick the WIQL query (natural-language
generation or the provided query), then run the HTTP flow. The second
component is the list of HTTP requests issued. -/
def build_work_items (st : AzState) (o1 o2 : HttpBehavior) : AzReadResult × List String :=
  match azFirstMissing st with
  | some attr => (⟨"error", "Missing required parameter: " ++ attr, none, []⟩, [])
  | none =>
      if st.use_natural_language then
        if st.natural_language_query = "" then
          (⟨"error",
            "Natural language query is required when " ++ "\x27Use Natural Language\x27" ++
              " is enabled", none, []⟩, [])
        else azRunQuery st o1 o2
      else
        if st.wiql_query = "" then
          (⟨"error", "WIQL query is required when not using natural language", none, []⟩, [])
        else azRunQuery st o1 o2

theorem string_data_append (a b : String) : (a ++ b).data = a.data ++ b.data := by
  cases a
  cases b
  rfl

theorem strContains_parts (a b c : String) : strContains (a ++ b ++ c) b = true := by
  unfold strContains
  rw [string_data_append, string_data_append]
  exact decide_eq_true ⟨a.data, c.data, by simp⟩

theorem str_append_ne_empty (a b : String) (h : a ≠ "") : (a ++ b) ≠ "" := by
  intro hc
  apply h
  have hd : (a ++ b).data = [] := by rw [hc]
  rw [string_data_append] at hd
  rcases List.append_eq_nil.mp hd with ⟨ha, _⟩
  cases a
  simp_all

/-- C7: for a non-empty id list, `_fetch_work_item_details` issues
exactly one HTTP request, whose URL contains all the ids joined by
commas (one bulk GET, no per-id requests, no chunking, no retry), and
returns the empty list whenever the call raises, the status is not 200,
or the response body is malformed. -/
theorem fetch_work_item_details_spec (st : AzState) (ids : List Json)
    (o : HttpBehavior) (hne : ids ≠ []) :
    (_fetch_work_item_details st ids o).2.length = 1 ∧
    (∀ u ∈ (_fetch_work_item_details st ids o).2,
      strContains u (String.intercalate "," (ids.map pyStr)) = true) ∧
    (∀ e, o = .raises e → (_fetch_work_item_details st ids o).1 = []) ∧
    (∀ status text body, o = .responds status text body → status ≠ 200 →
      (_fetch_work_item_details st ids o).1 = []) ∧
    (∀ status text e, o = .responds status text (.error e) →
      (_fetch_work_item_details st ids o).1 = []) := by
  have hurl : ∀ (ws : List WorkItem) (tr : List String),
      _fetch_work_item_details st ids o = (ws, tr) →
      tr = [azFetchUrl st ids] := by
    intro ws tr h
    rcases o with e | ⟨status, text, body⟩
    · simp only [_fetch_work_item_details] at h
      cases h
      rfl
    · simp only [_fetch_work_item_details] at h
      by_cases hs : status ≠ 200
      · rw [if_pos hs] at h
        cases h
        rfl
      · rw [if_neg hs] at h
        split at h
        · cases h
          rfl
        · split at h <;> (cases h; rfl)
  have htr := hurl (_fetch_work_item_details st ids o).1
    (_fetch_work_item_details st ids o).2 rfl
  refine ⟨by rw [htr]; rfl, ?_, ?_, ?_, ?_⟩
  · intro u hu
    rw [htr] at hu
    rcases List.mem_singleton.mp hu with rfl
    rw [show azFetchUrl st ids =
        ("https://dev.azure.com/" ++ st.organization ++ "/" ++ st.project ++
          "/_apis/wit/workitems?ids=") ++ String.intercalate "," (ids.map pyStr) ++
        "&api-version=5.1&$expand=all" by simp [azFetchUrl, String.append_assoc]]
    exact strContains_parts _ _ _
  · rintro e rfl
    rfl
  · rintro status text body rfl hs
    simp only [_fetch_work_item_details]
    rw [if_pos hs]
  · rintro status text e rfl
    by_cases hs : status ≠ 200
    · simp only [_fetch_work_item_details]
      rw [if_pos hs]
    · simp only [_fetch_work_item_details]
      rw [if_neg hs]

theorem fetch_work_item_details_spec_witness :
    ([(Json.num 1), (Json.num 2)] ≠ ([] : List Json)) ∧
    (_fetch_work_item_details ⟨"org", "proj", "tok", false, "", "q", "flat"⟩
      [(Json.num 1), (Json.num 2)] (.responds 503 (.ok "busy") (.error ⟨"E", "x"⟩))).1 = [] ∧
    (_fetch_work_item_details ⟨"org", "proj", "tok", false, "", "q", "flat"⟩
      [(Json.num 1), (Json.num 2)] (.responds 503 (.ok "busy") (.error ⟨"E", "x"⟩))).2.length
        = 1 :=
  ⟨by simp,
   (fetch_work_item_details_spec ⟨"org", "proj", "tok", false, "", "q", "flat"⟩
      [(Json.num 1), (Json.num 2)] (.responds 503 (.ok "busy") (.error ⟨"E", "x"⟩))
      (by simp)).2.2.2.1 503 (.ok "busy") (.error ⟨"E", "x"⟩) rfl (by decide),
   (fetch_work_item_details_spec ⟨"org", "proj", "tok", false, "", "q", "flat"⟩
      [(Json.num 1), (Json.num 2)] (.responds 503 (.ok "busy") (.error ⟨"E", "x"⟩))
      (by simp)).1⟩

/-- C8 (amended): every work item produced by the details mapping is a
flat record of thirteen string fields (strings by construction, via
`str(...)`); when `System.AssignedTo` / `System.CreatedBy` is a JSON
object its `displayName` member is used (empty string when absent); a
missing field becomes the empty string for eleven of the thirteen
fields, but a missing `System.AssignedTo` / `System.CreatedBy` becomes
the string `"None"` (Python `str(None)`), because those two lookups
default to `None` instead of `""`. -/
theorem work_item_field_mapping (ikvs fkvs : List (String × Json)) (w : WorkItem)
    (hf : dlookup ikvs "fields" = some (.obj fkvs))
    (hw : processWorkItem (.obj ikvs) = .ok w) :
    (dlookup fkvs "System.AssignedTo" = none → w.assigned_to = "None") ∧
    (∀ akvs, dlookup fkvs "System.AssignedTo" = some (.obj akvs) →
      w.assigned_to = pyStr ((dlookup akvs "displayName").getD (.str ""))) ∧
    (dlookup fkvs "System.CreatedBy" = none → w.created_by = "None") ∧
    (∀ ckvs, dlookup fkvs "System.CreatedBy" = some (.obj ckvs) →
      w.created_by = pyStr ((dlookup ckvs "displayName").getD (.str ""))) ∧
    (dlookup ikvs "id" = none → w.id = "") ∧
    (dlookup ikvs "url" = none → w.url = "") ∧
    (dlookup fkvs "System.Title" = none → w.title = "") ∧
    (dlookup fkvs "System.State" = none → w.state = "") ∧
    (dlookup fkvs "System.WorkItemType" = none → w.type = "") ∧
    (dlookup fkvs "System.Description" = none → w.description = "") ∧
    (dlookup fkvs "System.CreatedDate" = none → w.created_date = "") ∧
    (dlookup fkvs "System.ChangedDate" = none → w.changed_date = "") ∧
    (dlookup fkvs "System.Tags" = none → w.tags = "") ∧
    (dlookup fkvs "System.IterationPath" = none → w.iteration_path = "") ∧
    (dlookup fkvs "System.AreaPath" = none → w.area_path = "") := by
  unfold processWorkItem at hw
  simp only [bind, Except.bind, pure, Except.pure, Json.getd, hf, Option.getD_some] at hw
  injection hw with hw2
  subst hw2
  refine ⟨?_, ?_, ?_, ?_, ?_, ?_, ?_, ?_, ?_, ?_, ?_, ?_, ?_, ?_, ?_⟩
  · intro h
    simp [h, pyStr, pyRepr]
  · intro akvs h
    simp [h, pyStr]
  · intro h
    simp [h, pyStr, pyRepr]
  · intro ckvs h
    simp [h, pyStr]
  all_goals (intro h; simp [h, pyStr])

/-- C8 counterexample (to the claim as stated): a work item whose
`fields` dict lacks `System.AssignedTo` and `System.CreatedBy` maps
those fields to `"None"`, not to the empty string, in a successful
(status-200) detail fetch. -/
theorem work_item_missing_assignee_counterexample :
    ∃ w, processWorkItem
        (.obj [("id", .str "7"), ("url", .str "u"), ("fields", .obj [])]) = .ok w ∧
      w.assigned_to = "None" ∧ ¬w.assigned_to = "" ∧ w.created_by = "None" ∧
      w.title = "" := by
  refine ⟨⟨"7", "u", "", "", "", "None", "", "", "None", "", "", "", ""⟩, ?_, rfl,
    by decide, rfl, rfl⟩
  simp [processWorkItem, bind, Except.bind, pure, Except.pure, Json.getd, dlookup,
    pyStr, pyRepr]

theorem work_item_field_mapping_witness :
    ∃ w, processWorkItem
        (.obj [("id", .str "7"), ("url", .str "u"), ("fields", .obj [])]) = .ok w ∧
      w.assigned_to = "None" ∧ w.title = "" := by
  have hw : processWorkItem
      (.obj [("id", .str "7"), ("url", .str "u"), ("fields", .obj [])]) =
      .ok ⟨"7", "u", "", "", "", "None", "", "", "None", "", "", "", ""⟩ := by
    simp [processWorkItem, bind, Except.bind, pure, Except.pure, Json.getd, dlookup,
      pyStr, pyRepr]
  have h := work_item_field_mapping
    [("id", .str "7"), ("url", .str "u"), ("fields", .obj [])] [] _ rfl hw
  exact ⟨_, hw, h.1 rfl, h.2.2.2.2.2.2.1 rfl⟩

/-! ## AzureDevOpsWriterComponent (`azure_devops_writer.py`) -/

/-- The input attributes of `AzureDevOpsWriterComponent`. -/
structure WState where
  organization : String
  project : String
  pat_token : String
  work_item_type : String
  input_text : String
  area_path : String
  iteration_path : String
  openai_api_key : String
  model : String

/-- Behaviour of the OpenAI chat-completion call inside
`_extract_work_items_with_llm`: the call raises; or the returned
message has a falsy `function_call` / empty `arguments`; or it carries
arguments whose JSON-parse outcome is the given `Except`. -/
inductive LlmBehavior where
  | raises (e : PyExn)
  | responds (function_call : Option (Except PyExn Json))

/-- Embeds `AzureDevOpsWriterComponent._extract_work_items_with_llm`
(lines 254-339): every failure path - the call raising, a falsy
function call, a JSON decode error (inner `except`), or a non-dict
arguments object (outer `except`) - returns the empty list; otherwise
the raw `items` value of the parsed arguments is returned. -/
def _extract_work_items_with_llm (st : WState) (b : LlmBehavior) : Json :=
  match b with
  | .raises _ => .arr []
  | .responds none => .arr []
  | .responds (some (.error _)) => .arr []
  | .responds (some (.ok args)) =>
      match args.getd "items" (.arr []) with
      | .ok items => items
      | .error _ => .arr []

/-- Python `self.work_item_type.replace(" ", "%20")` (line 358). -/
def pyReplaceSpace (s : String) : String :=
  String.mk (s.data.foldr
    (fun c acc => if c = ' ' then '%' :: '2' :: '0' :: acc else c :: acc) [])

/-- The creation POST URL (line 358). -/
def azWriterUrl (st : WState) : String :=
  "https://dev.azure.com/" ++ st.organization ++ "/" ++ st.project ++
    "/_apis/wit/workitems/$" ++ pyReplaceSpace st.work_item_type ++ "?api-version=6.0"

/-- The dict appended per created item (lines 425-430):
`id` and `url` from the response (`.get`, so possibly `None`), the
extracted title, and the configured work item type. -/
structure CreatedItem where
  id : Json
  url : Json
  title : Json
  type : String

/-- The priority block (lines 399-410): `_parse_priority` is only
reached for truthy priorities and raises `AttributeError` on
non-strings (`.lower()`); the surrounding `except ValueError` does not
catch that, so it aborts the item. -/
def priorityStep (item : Json) : Except PyExn Unit :=
  if item.hasKey "priority" then
    match item.index "priority" with
    | .ok p =>
        if pyFalsy p then .ok ()
        else
          match p with
          | .str _ => .ok ()
          | _ => .error ⟨"AttributeError", "object has no attribute " ++ "\x27lower\x27"⟩
    | .error e => .error e
  else .ok ()

/-- The tags block (lines 413-419): `"; ".join` raises `TypeError` when
a tag list contains non-strings. -/
def tagsStep (item : Json) : Except PyExn Unit :=
  if item.hasKey "tags" then
    match item.index "tags" with
    | .ok (.arr xs) =>
        if xs.isEmpty then .ok ()
        else if xs.all (fun x => match x with | .str _ => true | _ => false) then .ok ()
        else .error ⟨"TypeError", "sequence item: expected str instance"⟩
    | .ok _ => .ok ()
    | .error e => .error e
  else .ok ()

/-- One iteration of the creation loop (lines 356-437): build the patch
document (fallible field accesses), then issue the POST; a 200 response
yields a `CreatedItem`, any other status is logged and skipped, and any
exception aborts the item (caught by the per-item `except`). The
second component is the list of requests actually issued. -/
def createOneItem (st : WState) (item : Json) (o : HttpBehavior) :
    Except PyExn (Option CreatedItem) × List String :=
  match (do
      let title ← item.index "title"
      let _ ← item.index "description"
      let _ ← priorityStep item
      let _ ← tagsStep item
      pure title : Except PyExn Json) with
  | .error e => (.error e, [])
  | .ok title =>
      let url := azWriterUrl st
      match o with
      | .raises e => (.error e, [url])
      | .responds status text body =>
          if status == 200 then
            match body with
            | .error e => (.error e, [url])
            | .ok wr =>
                match (do
                    let idv ← wr.getd "id" .null
                    let urlv ← wr.getd "url" .null
                    pure (some (⟨idv, urlv, title, st.work_item_type⟩ : CreatedItem)) :
                  Except PyExn (Option CreatedItem)) with
                | .error e => (.error e, [url])
                | .ok r => (.ok r, [url])
          else
            match text with
            | .error e => (.error e, [url])
            | .ok _ => (.ok none, [url])

/-- Embeds `AzureDevOpsWriterComponent._create_work_items_in_azure_devops`
(lines 341-442): iterate the extracted items (a non-iterable value
raises into the outer `except`, returning the empty list); each item is
processed independently and failures are skipped. -/
def _create_work_items_in_azure_devops (st : WState) (work_items : Json)
    (os : Nat → HttpBehavior) : List CreatedItem × List String :=
  match pyIter work_items with
  | .error _ => ([], [])
  | .ok items =>
      items.enum.foldl
        (fun acc p =>
          let r := createOneItem st p.2 (os p.1)
          match r.1 with
          | .ok (some ci) => (acc.1 ++ [ci], acc.2 ++ r.2)
          | _ => (acc.1, acc.2 ++ r.2))
        ([], [])

/-- The result dict of `create_work_items`: the `extracted_items` key
is present only in the post-extraction outcomes (lines 177-190). -/
structure WCreateResult where
  status : String
  message : String
  extracted_items : Option Json
  created_items : List CreatedItem

/-- The required-attribute loop of `create_work_items` (lines 152-160). -/
def wFirstMissing (st : WState) : Option String :=
  if st.organization = "" then some "organization"
  else if st.project = "" then some "project"
  else if st.pat_token = "" then some "pat_token"
  else if st.input_text = "" then some "input_text"
  else if st.openai_api_key = "" then some "openai_api_key"
  else none

/-- Embeds `AzureDevOpsWriterComponent.create_work_items` (lines 149-203):
validate, extract via the LLM, create the items, and classify the
outcome; any exception is converted by the outer `except` (the body
below is total, so it never fires). The second component is the list of
HTTP requests issued. -/
def create_work_items (st : WState) (lb : LlmBehavior) (os : Nat → HttpBehavior) :
    WCreateResult × List String :=
  match wFirstMissing st with
  | some attr => (⟨"error", "Missing required parameter: " ++ attr, none, []⟩, [])
  | none =>
      let extracted := _extract_work_items_with_llm st lb
      if pyFalsy extracted then
        (⟨"warning",
          "No " ++ st.work_item_type ++ " items were extracted from the input text",
          none, []⟩, [])
      else
        let created := _create_work_items_in_azure_devops st extracted os
        if created.1.isEmpty then
          (⟨"error", "Failed to create work items in Azure DevOps", some extracted, []⟩,
           created.2)
        else
          (⟨"success",
            "Successfully created " ++ toString created.1.length ++ " " ++
              st.work_item_type ++ " items", some extracted, created.1⟩,
           created.2)

/-- The result dict of `extract_work_items` (lines 205-252). -/
structure WExtractResult where
  status : String
  message : String
  extracted_items : Json

/-- Embeds `AzureDevOpsWriterComponent.extract_work_items` (lines 205-252):
validate `input_text` and `openai_api_key`, extract, and classify; the
success message calls `len(...)` on the extracted value, whose
`TypeError` on unsized values is caught by the outer `except`. -/
def extract_work_items (st : WState) (lb : LlmBehavior) : WExtractResult × List String :=
  if st.input_text = "" then
    (⟨"error", "Missing required input text", .arr []⟩, [])
  else if st.openai_api_key = "" then
    (⟨"error", "Missing required OpenAI API key", .arr []⟩, [])
  else
    let extracted := _extract_work_items_with_llm st lb
    if pyFalsy extracted then
      (⟨"warning",
        "No " ++ st.work_item_type ++ " items were extracted from the input text",
        .arr []⟩, [])
    else
      match pyLen extracted with
      | .ok n =>
          (⟨"success",
            "Successfully extracted " ++ toString n ++ " " ++ st.work_item_type ++
              " items", extracted⟩, [])
      | .error e =>
          (⟨"error", "Error extracting work items: " ++ e.msg, .arr []⟩, [])

theorem jira_trace_always_one (js : JiraState) (jo : HttpBehavior) :
    (build_issues js jo).2 = [pyRstripSlash js.site_url ++ "/rest/api/3/search"] := by
  rcases jo with e | ⟨status, text, body⟩
  · rfl
  · simp only [build_issues]
    split
    · split <;> rfl
    · split
      · rfl
      · split <;> rfl

/-- C2 (amended): the Azure DevOps reader's `build_work_items` and the
writer's `create_work_items` validate their required string fields
before any HTTP call and, when one is missing or empty, return the
`status: "error"` payload whose message names the first missing
parameter, issuing no HTTP request; the Jira reader's `build_issues`
performs no such validation and issues its search request on every
invocation, whatever the field values. -/
theorem required_field_validation (st : AzState) (w : WState) (js : JiraState)
    (o1 o2 jo : HttpBehavior) (lb : LlmBehavior) (os : Nat → HttpBehavior) :
    (∀ attr, azFirstMissing st = some attr →
      build_work_items st o1 o2 =
        (⟨"error", "Missing required parameter: " ++ attr, none, []⟩, [])) ∧
    (∀ attr, wFirstMissing w = some attr →
      create_work_items w lb os =
        (⟨"error", "Missing required parameter: " ++ attr, none, []⟩, [])) ∧
    (build_issues js jo).2 ≠ [] := by
  refine ⟨?_, ?_, ?_⟩
  · intro attr h
    simp only [build_work_items, h]
  · intro attr h
    simp only [create_work_items, h]
  · rw [jira_trace_always_one]
    simp

theorem required_field_validation_witness :
    build_work_items ⟨"", "p", "t", false, "", "q", "flat"⟩
        (.raises ⟨"E", "x"⟩) (.raises ⟨"E", "x"⟩) =
      (⟨"error", "Missing required parameter: " ++ "organization", none, []⟩, []) ∧
    create_work_items ⟨"o", "p", "t", "Bug", "", "", "", "", "gpt-3.5-turbo"⟩
        (.raises ⟨"E", "x"⟩) (fun _ => .raises ⟨"E", "x"⟩) =
      (⟨"error", "Missing required parameter: " ++ "input_text", none, []⟩, []) :=
  ⟨(required_field_validation ⟨"", "p", "t", false, "", "q", "flat"⟩
      ⟨"o", "p", "t", "Bug", "", "", "", "", "gpt-3.5-turbo"⟩ jiraEmptyState
      (.raises ⟨"E", "x"⟩) (.raises ⟨"E", "x"⟩) (.raises ⟨"E", "x"⟩)
      (.raises ⟨"E", "x"⟩) (fun _ => .raises ⟨"E", "x"⟩)).1 "organization" rfl,
   (required_field_validation ⟨"", "p", "t", false, "", "q", "flat"⟩
      ⟨"o", "p", "t", "Bug", "", "", "", "", "gpt-3.5-turbo"⟩ jiraEmptyState
      (.raises ⟨"E", "x"⟩) (.raises ⟨"E", "x"⟩) (.raises ⟨"E", "x"⟩)
      (.raises ⟨"E", "x"⟩) (fun _ => .raises ⟨"E", "x"⟩)).2.1 "input_text" rfl⟩

theorem azRunQuery_shape (st : AzState) (o1 o2 : HttpBehavior) :
    ((azRunQuery st o1 o2).1.status = "success" ∨
      (azRunQuery st o1 o2).1.status = "error") ∧
    (azRunQuery st o1 o2).1.message ≠ "" := by
  simp only [azRunQuery]
  repeat (any_goals split)
  all_goals dsimp only
  all_goals constructor
  all_goals first
    | decide
    | (repeat apply str_append_ne_empty
       decide)

theorem build_work_items_shape (st : AzState) (o1 o2 : HttpBehavior) :
    ((build_work_items st o1 o2).1.status = "success" ∨
      (build_work_items st o1 o2).1.status = "error") ∧
    (build_work_items st o1 o2).1.message ≠ "" := by
  simp only [build_work_items]
  split
  · constructor
    · right
      rfl
    · exact str_append_ne_empty _ _ (by decide)
  · split
    · split
      · exact ⟨Or.inr rfl, by decide⟩
      · exact azRunQuery_shape st o1 o2
    · split
      · exact ⟨Or.inr rfl, by decide⟩
      · exact azRunQuery_shape st o1 o2

theorem create_work_items_shape (w : WState) (lb : LlmBehavior)
    (os : Nat → HttpBehavior) :
    ((create_work_items w lb os).1.status = "success" ∨
      (create_work_items w lb os).1.status = "error" ∨
      (create_work_items w lb os).1.status = "warning") ∧
    (create_work_items w lb os).1.message ≠ "" := by
  simp only [create_work_items]
  repeat (any_goals split)
  all_goals dsimp only
  all_goals constructor
  all_goals first
    | decide
    | (repeat apply str_append_ne_empty
       decide)

theorem extract_work_items_shape (w : WState) (lb : LlmBehavior) :
    ((extract_work_items w lb).1.status = "success" ∨
      (extract_work_items w lb).1.status = "error" ∨
      (extract_work_items w lb).1.status = "warning") ∧
    (extract_work_items w lb).1.message ≠ "" := by
  simp only [extract_work_items]
  repeat (any_goals split)
  all_goals dsimp only
  all_goals constructor
  all_goals first
    | decide
    | (repeat apply str_append_ne_empty
       decide)

/-- The failure discipline of a `build_issues` result: every non-success
shape carries the `error` status flag and a non-empty message. -/
def JiraResult.wellFormed : JiraResult → Prop
  | .success _ => True
  | .httpError status message _ => status = "error" ∧ message ≠ ""
  | .exn status message _ => status = "error" ∧ message ≠ ""

theorem build_issues_shape (js : JiraState) (jo : HttpBehavior) :
    ((build_issues js jo).1).wellFormed := by
  rcases jo with e | ⟨status, text, body⟩
  · exact ⟨rfl, str_append_ne_empty _ _ (by decide)⟩
  · simp only [build_issues]
    repeat (any_goals split)
    all_goals dsimp only [JiraResult.wellFormed]
    all_goals constructor
    all_goals first
      | rfl
      | (repeat apply str_append_ne_empty
         decide)

/-- C1: for every component state and every behaviour of the underlying
HTTP and LLM calls, each public output method (`build_work_items`,
`create_work_items`, `extract_work_items`, `build_issues`) is a total
function of that behaviour - exceptions exist only as oracle values and
internal `Except` values, all of which are consumed by the embedded
`except` blocks, so none propagates to the caller - and the returned
result object carries a status flag with a non-empty human-readable
message: the Azure DevOps results always carry
`status ∈ \x7bsuccess, error, warning\x7d` and a non-empty message, and
every non-success Jira result carries `status = "error"` and a
non-empty message. -/
theorem error_handling_uniform :
    (∀ (st : AzState) (o1 o2 : HttpBehavior),
      ((build_work_items st o1 o2).1.status = "success" ∨
        (build_work_items st o1 o2).1.status = "error") ∧
      (build_work_items st o1 o2).1.message ≠ "") ∧
    (∀ (w : WState) (lb : LlmBehavior) (os : Nat → HttpBehavior),
      ((create_work_items w lb os).1.status = "success" ∨
        (create_work_items w lb os).1.status = "error" ∨
        (create_work_items w lb os).1.status = "warning") ∧
      (create_work_items w lb os).1.message ≠ "") ∧
    (∀ (w : WState) (lb : LlmBehavior),
      ((extract_work_items w lb).1.status = "success" ∨
        (extract_work_items w lb).1.status = "error" ∨
        (extract_work_items w lb).1.status = "warning") ∧
      (extract_work_items w lb).1.message ≠ "") ∧
    (∀ (js : JiraState) (jo : HttpBehavior), ((build_issues js jo).1).wellFormed) :=
  ⟨build_work_items_shape, create_work_items_shape, extract_work_items_shape,
   build_issues_shape⟩
